import Mathlib

/-!
Verification of the play-by-play cleaning / enrichment pipeline of the
nhl-shotmaps-lambda repository.

The pipeline lives in `shotmaps-generator-sendtweet/clean_pbp.py` and is driven
by `shotmaps_generator_sendtweet/lambda_handler.py`.  A pandas DataFrame is
modelled as a `List Row`; column-wise pandas operations become `List.map`
(row-wise), a prev-row traversal (`.shift(1)`) or an explicit fold (`.cumsum()`).
Pandas `NaN` cells are modelled with `Option`; pandas comparisons involving
`NaN` are false, which `optEq` / `ltOptInt` reproduce.
-/

namespace Shotmaps

/-- Pandas equality on possibly-missing cells: `NaN == anything` is false. -/
def optEq (a b : Option String) : Bool :=
  match a, b with
  | some x, some y => x == y
  | _, _ => false

/-- Pandas `<` against a scalar on a possibly-missing numeric cell:
`NaN < k` is false. -/
def ltOptInt (o : Option ℤ) (k : ℤ) : Bool :=
  match o with
  | some v => decide (v < k)
  | none => false

/-- Embeds `Series.fillna(v)`: replace missing cells by `v`; if `v` is itself the
missing value the fill is a no-op. -/
def fillCell (v : Option String) (c : Option String) : Option String :=
  match c with
  | none => v
  | some s => some s

/-- Worker for `pd_unique`: keep the first occurrence of each value, skipping
values already seen. -/
def pd_unique_aux (seen : List (Option String)) : List (Option String) → List (Option String)
  | [] => []
  | a :: l => if a ∈ seen then pd_unique_aux seen l else a :: pd_unique_aux (a :: seen) l

/-- Pandas `Series.unique()`: distinct values in order of first occurrence
(all missing cells collapse to a single entry, as pandas does for `NaN`). -/
def pd_unique (l : List (Option String)) : List (Option String) :=
  pd_unique_aux [] l

/-- One play-by-play record (one DataFrame row), with raw columns and all
derived columns the pipeline writes.  Derived columns start at neutral
defaults and are populated by the corresponding `calc_*` stage. -/
structure Row where
  period : ℤ := 1
  seconds_elapsed : ℤ := 0
  event : String := ""
  ev_team : Option String := none
  home_team : Option String := none
  away_team : Option String := none
  ev_zone : String := ""
  p1_name : Option String := none
  p2_name : Option String := none
  p1_id : Option String := none
  p2_id : Option String := none
  strength : String := "5x5"
  xc : ℤ := 0
  yc : ℤ := 0
  home_score : ℤ := 0
  away_score : ℤ := 0
  time_diff : Option ℤ := none
  is_corsi : ℤ := 0
  is_fenwick : ℤ := 0
  is_shot : ℤ := 0
  is_goal : ℤ := 0
  is_home : ℤ := 0
  score_diff : ℤ := 0
  was_tied : ℤ := 0
  is_rebound : ℤ := 0
  is_rush : ℤ := 0
  shot_quality_blocked : ℤ := 0
  shot_quality_area : Option ℤ := none
  shot_danger : ℤ := 0
  is_scoring_chance : ℤ := 0
  distance_togoal_sq : ℚ := 0
  is_even_strength : ℤ := 0
  is_home_pp : ℤ := 0
  is_home_pk : ℤ := 0
  is_away_pp : ℤ := 0
  is_away_pk : ℤ := 0
deriving DecidableEq

/-- Error raised by pandas when the code indexes `unique()[0]` on an empty
column (`clean_df` on an empty frame). -/
inductive CleanError where
  | indexError : CleanError
deriving DecidableEq

/-!  Raw coordinate cells, for `clean_df` lines 25-28.  A raw `xc`/`yc` cell is
an empty string, a missing value (`NaN`) or a numeric value. -/

/-- A raw coordinate cell before `clean_df` coerces the column to `int`. -/
inductive CoordCell where
  | emptyStr : CoordCell
  | missing : CoordCell
  | numVal (q : ℚ) : CoordCell
deriving DecidableEq

/-- Embeds `df["xc"].replace("", "0", regex=False)` (clean_pbp.py line 25): the empty
string becomes the string "0", which the later `astype(int)` reads as the
number 0 — we fold that parse into the replacement. -/
def coord_replace_empty (c : CoordCell) : CoordCell :=
  match c with
  | .emptyStr => .numVal 0
  | c => c

/-- Embeds `.fillna(0)` on a coordinate column (line 27/28, first half). -/
def coord_fillna_zero (c : CoordCell) : CoordCell :=
  match c with
  | .missing => .numVal 0
  | c => c

/-- Truncation toward zero, the behaviour of `astype(int)` on a float. -/
def ratTrunc (q : ℚ) : ℤ :=
  Int.tdiv q.num (q.den : ℤ)

/-- Embeds `.astype(int)` on a single cell: fails (pandas raises) on a non-numeric
cell, otherwise truncates toward zero. -/
def coord_astype_int (c : CoordCell) : Option ℤ :=
  match c with
  | .numVal q => some (ratTrunc q)
  | _ => none

/-- The full per-cell coordinate coercion of `clean_df` (lines 25-28):
replace "" by "0", fill missing with 0, cast to int. -/
def clean_coord (c : CoordCell) : Option ℤ :=
  coord_astype_int (coord_fillna_zero (coord_replace_empty c))

/-- The coordinate coercion applied to a whole column; `none` when pandas
would raise on some cell. -/
def clean_coord_column : List CoordCell → Option (List ℤ)
  | [] => some []
  | c :: t =>
    match clean_coord c with
    | none => none
    | some v => (clean_coord_column t).map (fun vs => v :: vs)

/-- Modelled from the spec: the claimed per-cell result of the coercion —
empty strings and missing values become 0, any remaining value is cast to
int with the fractional part truncated. -/
def coord_int_claim (c : CoordCell) : ℤ :=
  match c with
  | .emptyStr => 0
  | .missing => 0
  | .numVal q => ratTrunc q

/-- Embeds `np.where(event == "GOAL" & ev_team == v, 1, 0).cumsum()` written into the
`away_score` column (clean_pbp.py lines 35-37); `acc` is the running sum. -/
def set_away_scores (v : Option String) (acc : ℤ) : List Row → List Row
  | [] => []
  | r :: l =>
      let acc2 := acc + (if r.event = "GOAL" ∧ optEq r.ev_team v then 1 else 0)
      {r with away_score := acc2} :: set_away_scores v acc2 l

/-- Same as `set_away_scores` for the `home_score` column (lines 38-40). -/
def set_home_scores (v : Option String) (acc : ℤ) : List Row → List Row
  | [] => []
  | r :: l =>
      let acc2 := acc + (if r.event = "GOAL" ∧ optEq r.ev_team v then 1 else 0)
      {r with home_score := acc2} :: set_home_scores v acc2 l

/-- Embeds `clean_df` (clean_pbp.py lines 12-42).  The coordinate coercion of lines
25-28 acts on raw cells and is modelled by `clean_coord`; `Row` carries the
post-coercion integer coordinates, so on a `Row` those lines are the
identity.  Lines 31-32 fill missing team names with `unique()[0]` of the
column (its first value); lines 35-40 recompute the running scores.  On an
empty frame `unique()[0]` raises `IndexError`. -/
def clean_df (l : List Row) : Except CleanError (List Row) :=
  match l with
  | [] => .error .indexError
  | _ =>
    let awayFill := (pd_unique (l.map (·.away_team))).headD none
    let l1 := l.map (fun r => {r with away_team := fillCell awayFill r.away_team})
    let homeFill := (pd_unique (l1.map (·.home_team))).headD none
    let l2 := l1.map (fun r => {r with home_team := fillCell homeFill r.home_team})
    let awayU := (pd_unique (l2.map (·.away_team))).headD none
    let l3 := set_away_scores awayU 0 l2
    let homeU := (pd_unique (l3.map (·.home_team))).headD none
    let l4 := set_home_scores homeU 0 l3
    .ok l4

/-!  A prev-row traversal: the shallow embedding of the pandas `.shift(1)`
combinators used by `calc_time_diff`, `calc_rebound`, `calc_rush_shot` and
`calc_was_tied`.  `f` receives the previous row (none for the first row,
where every shifted cell is `NaN`) and the current row. -/

/-- Worker for `mapWithPrev`, carrying the previous element. -/
def mapWithPrevAux (f : Option Row → Row → Row) : Option Row → List Row → List Row
  | _, [] => []
  | prev, a :: l => f prev a :: mapWithPrevAux f (some a) l

/-- Map over a list where `f` also sees the previous element. -/
def mapWithPrev (f : Option Row → Row → Row) (l : List Row) : List Row :=
  mapWithPrevAux f none l

/-- Embeds `fix_seconds_elapsed` (clean_pbp.py lines 138-153): add `1200*(period-1)`
to the within-period seconds. -/
def fix_seconds_elapsed (l : List Row) : List Row :=
  l.map (fun r => {r with seconds_elapsed := r.seconds_elapsed + 1200 * (r.period - 1)})

/-- The `flipped_zones` replacement dict of `fixed_blocked_shots` (line 207):
Off ↦ Def, Neu ↦ Neu, Def ↦ Off; `Series.replace` leaves other values
unchanged. -/
def flip_zone (z : String) : String :=
  if z = "Off" then "Def" else if z = "Def" then "Off" else z

/-- Embeds `fixed_blocked_shots` (clean_pbp.py lines 173-211): swap p1/p2 name and id
for BLOCK events (via the new_* columns, which are then copied back and
dropped), set `shot_quality_blocked` to -1 for BLOCK else 0, and apply the
`flipped_zones` replacement to the whole `ev_zone` column
(`pbp_df["ev_zone"].replace(flipped_zones)` has no BLOCK filter). -/
def fixed_blocked_shots (l : List Row) : List Row :=
  l.map (fun r =>
    let r1 := if r.event = "BLOCK" then
        {r with p1_name := r.p2_name, p2_name := r.p1_name,
                p1_id := r.p2_id, p2_id := r.p1_id}
      else r
    let r2 := {r1 with shot_quality_blocked := if r.event = "BLOCK" then -1 else 0}
    {r2 with ev_zone := flip_zone r2.ev_zone})

/-- Embeds `calc_time_diff` (lines 278-291): `seconds_elapsed - seconds_elapsed.shift(1)`;
`NaN` (none) on the first row. -/
def calc_time_diff (l : List Row) : List Row :=
  mapWithPrev (fun prev r =>
    {r with time_diff := prev.map (fun p => r.seconds_elapsed - p.seconds_elapsed)}) l

/-- Embeds `calc_shot_metrics` (lines 214-235): corsi / fenwick / shot / goal flags. -/
def calc_shot_metrics (l : List Row) : List Row :=
  let corsi := ["SHOT", "BLOCK", "MISS", "GOAL"]
  let fenwick := ["SHOT", "MISS", "GOAL"]
  let shot := ["SHOT", "GOAL"]
  l.map (fun r =>
    {r with is_corsi := if r.event ∈ corsi then 1 else 0,
            is_fenwick := if r.event ∈ fenwick then 1 else 0,
            is_shot := if r.event ∈ shot then 1 else 0,
            is_goal := if r.event = "GOAL" then 1 else 0})

/-- Embeds `calc_distance_togoal` (lines 156-170) computes
`sqrt((87.95 - |xc|)^2 + yc^2)`.  The square root is a monotone bijection on
the nonnegative reals and nothing in the verified scope consumes the
distance, so the embedding stores the radicand exactly. -/
def calc_distance_togoal (l : List Row) : List Row :=
  l.map (fun r =>
    {r with distance_togoal_sq := ((87.95 : ℚ) - |(r.xc : ℚ)|) ^ 2 + ((r.yc : ℚ)) ^ 2})

/-- Embeds `calc_score_diff` (lines 255-275): `home_score - away_score` clamped to
[-3, 3] by two successive `np.where` rewrites. -/
def calc_score_diff (l : List Row) : List Row :=
  l.map (fun r =>
    let d1 := r.home_score - r.away_score
    let d2 := if d1 < -3 then -3 else d1
    let d3 := if 3 < d2 then 3 else d2
    {r with score_diff := d3})

/-- Embeds `pbp_df.is_corsi.shift(1) == 1`: false on the first row (`NaN == 1`). -/
def prev_is_corsi (prev : Option Row) : Bool :=
  match prev with
  | some p => p.is_corsi == 1
  | none => false

/-- Embeds `pbp_df.ev_team == pbp_df.ev_team.shift(1)`: false on the first row. -/
def prev_same_team (prev : Option Row) (r : Row) : Bool :=
  match prev with
  | some p => optEq r.ev_team p.ev_team
  | none => false

/-- Embeds `calc_rebound` (lines 310-337): `is_rebound = 1` when `time_diff < 4`,
the event is a corsi event, the previous event is a corsi event and the
acting team equals the previous acting team. -/
def calc_rebound (l : List Row) : List Row :=
  mapWithPrev (fun prev r =>
    {r with is_rebound :=
      if ltOptInt r.time_diff 4 && (r.is_corsi == 1)
          && prev_is_corsi prev && prev_same_team prev r
      then 1 else 0}) l

/-- Embeds `(pbp_df.xc.shift(1) * pbp_df.xc < 0) | (abs(pbp_df.xc.shift(1)) <= 26)`:
false on the first row (`NaN` arithmetic/comparisons). -/
def prev_rush_zone (prev : Option Row) (r : Row) : Bool :=
  match prev with
  | some p => decide (p.xc * r.xc < 0) || decide (|p.xc| ≤ 26)
  | none => false

/-- Embeds `calc_rush_shot` (lines 340-365). -/
def calc_rush_shot (l : List Row) : List Row :=
  mapWithPrev (fun prev r =>
    {r with is_rush :=
      if ltOptInt r.time_diff 5
          && (r.event ∈ ["SHOT", "MISS", "BLOCK", "GOAL"] : Bool)
          && prev_rush_zone prev r
      then 1 else 0}) l

/-- Embeds `calc_is_home` (lines 238-252): acting team equals home team. -/
def calc_is_home (l : List Row) : List Row :=
  l.map (fun r => {r with is_home := if optEq r.ev_team r.home_team then 1 else 0})

/-- Embeds `pbp_df.score_diff.shift(1) == 0`: false on the first row. -/
def prev_score_tied (prev : Option Row) : Bool :=
  match prev with
  | some p => p.score_diff == 0
  | none => false

/-- Embeds `calc_was_tied` (lines 294-307). -/
def calc_was_tied (l : List Row) : List Row :=
  mapWithPrev (fun prev r =>
    {r with was_tied :=
      if (r.event == "GOAL") && prev_score_tied prev then 1 else 0}) l

/-- The medium-danger triangle of `dfapply_danger_area` (line 110). -/
def md_triangle : (ℤ × ℤ) × (ℤ × ℤ) × (ℤ × ℤ) :=
  ((70, 23), (90, 8), (70, 8))

/-- Segment A-to-B orientation determinant of `point_in_triangle` (line 97). -/
def tri_side_1 (p : ℤ × ℤ) (t : (ℤ × ℤ) × (ℤ × ℤ) × (ℤ × ℤ)) : ℤ :=
  (p.1 - t.2.1.1) * (t.1.2 - t.2.1.2) - (t.1.1 - t.2.1.1) * (p.2 - t.2.1.2)

/-- Segment B-to-C orientation determinant of `point_in_triangle` (line 99). -/
def tri_side_2 (p : ℤ × ℤ) (t : (ℤ × ℤ) × (ℤ × ℤ) × (ℤ × ℤ)) : ℤ :=
  (p.1 - t.2.2.1) * (t.2.1.2 - t.2.2.2) - (t.2.1.1 - t.2.2.1) * (p.2 - t.2.2.2)

/-- Segment C-to-A orientation determinant of `point_in_triangle` (line 101). -/
def tri_side_3 (p : ℤ × ℤ) (t : (ℤ × ℤ) × (ℤ × ℤ) × (ℤ × ℤ)) : ℤ :=
  (p.1 - t.1.1) * (t.2.2.2 - t.1.2) - (t.2.2.1 - t.1.1) * (p.2 - t.1.2)

/-- Embeds `point_in_triangle` (clean_pbp.py lines 82-103).  The Python return is the
chained comparison `(side_1 < 0.0) == (side_2 < 0.0) == (side_3 < 0.0)`,
i.e. the first two signs agree AND the last two signs agree. -/
def point_in_triangle (p : ℤ × ℤ) (t : (ℤ × ℤ) × (ℤ × ℤ) × (ℤ × ℤ)) : Bool :=
  (decide (tri_side_1 p t < 0) == decide (tri_side_2 p t < 0))
    && (decide (tri_side_2 p t < 0) == decide (tri_side_3 p t < 0))

/-- Embeds `dfapply_danger_area` (clean_pbp.py lines 106-129), on the absolute
coordinates of the row. -/
def dfapply_danger_area (r : Row) : Option ℤ :=
  let x := |r.xc|
  let y := |r.yc|
  if ¬ (r.is_corsi = 1) then none
  else if r.ev_zone ≠ "Off" ∧ r.is_corsi = 1 then some 0
  else if 69 ≤ x ∧ x ≤ 89 ∧ y ≤ 9 then some 3
  else if (44 ≤ x ∧ x ≤ 54 ∧ y ≤ 9) ∨ (54 ≤ x ∧ x ≤ 69 ∧ y ≤ 22)
      ∨ point_in_triangle (x, y) md_triangle then some 2
  else if r.ev_zone = "Off" then some 1
  else some 0

/-- Modelled from the spec wording of the claim: the case analysis the danger
classifier is claimed to implement — null unless corsi, 0 outside the
offensive zone, then 3 / 2 / 1 by region. -/
def danger_area_claim (r : Row) : Option ℤ :=
  let x := |r.xc|
  let y := |r.yc|
  if ¬ (r.is_corsi = 1) then none
  else if r.ev_zone ≠ "Off" then some 0
  else if 69 ≤ x ∧ x ≤ 89 ∧ y ≤ 9 then some 3
  else if (44 ≤ x ∧ x ≤ 54 ∧ y ≤ 9) ∨ (54 ≤ x ∧ x ≤ 69 ∧ y ≤ 22)
      ∨ point_in_triangle (x, y) md_triangle then some 2
  else some 1

/-- Embeds `calc_shot_quality_area` (lines 368-383): row-wise apply of
`dfapply_danger_area`. -/
def calc_shot_quality_area (l : List Row) : List Row :=
  l.map (fun r => {r with shot_quality_area := dfapply_danger_area r})

/-- Embeds `calc_shot_danger` (lines 386-402): row-wise sum of `shot_quality_area`,
`is_rush`, `is_rebound`, `shot_quality_blocked`; pandas `sum(axis=1)` skips
`NaN`, so a missing area counts as 0. -/
def calc_shot_danger (l : List Row) : List Row :=
  l.map (fun r =>
    {r with shot_danger :=
      r.shot_quality_area.getD 0 + r.is_rush + r.is_rebound + r.shot_quality_blocked})

/-- Embeds `calc_is_scoring_chance` (lines 405-420): `shot_danger >= 2`. -/
def calc_is_scoring_chance (l : List Row) : List Row :=
  l.map (fun r => {r with is_scoring_chance := if 2 ≤ r.shot_danger then 1 else 0})

/-- Embeds `calc_team_strength` (lines 423-446). -/
def calc_team_strength (l : List Row) : List Row :=
  let even := ["5x5", "4x4", "3x3"]
  let home_pp := ["6x4", "5x4", "5x3", "4x3"]
  let home_pk := ["4x6", "4x5", "3x5", "3x4"]
  l.map (fun r =>
    {r with is_even_strength := if r.strength ∈ even then 1 else 0,
            is_home_pp := if r.strength ∈ home_pp then 1 else 0,
            is_home_pk := if r.strength ∈ home_pk then 1 else 0,
            is_away_pp := if r.strength ∈ home_pk then 1 else 0,
            is_away_pk := if r.strength ∈ home_pp then 1 else 0})

/-- Embeds `run_all_stats` (clean_pbp.py lines 45-73): the fourteen stages in source
order; note it begins with another `fix_seconds_elapsed`. -/
def run_all_stats (l : List Row) : List Row :=
  let l1 := fix_seconds_elapsed l
  let l2 := fixed_blocked_shots l1
  let l3 := calc_time_diff l2
  let l4 := calc_shot_metrics l3
  let l5 := calc_distance_togoal l4
  let l6 := calc_score_diff l5
  let l7 := calc_rebound l6
  let l8 := calc_rush_shot l7
  let l9 := calc_is_home l8
  let l10 := calc_was_tied l9
  let l11 := calc_shot_quality_area l10
  let l12 := calc_shot_danger l11
  let l13 := calc_is_scoring_chance l12
  calc_team_strength l13

/-- The normalization steps of `lambda_handler` (lambda_handler.py lines
184-189): `fix_seconds_elapsed`, then `clean_df`, then `run_all_stats`. -/
def lambda_normalize (l : List Row) : Except CleanError (List Row) :=
  match clean_df (fix_seconds_elapsed l) with
  | .error e => .error e
  | .ok df => .ok (run_all_stats df)

/-- The `seconds_elapsed` column of a normalization result (empty on error). -/
def result_seconds (r : Except CleanError (List Row)) : List ℤ :=
  match r with
  | .ok l => l.map (·.seconds_elapsed)
  | .error _ => []

/-- Embeds `df_remove_zerozero` (clean_pbp.py lines 478-487): keep the rows whose
`xc` is nonzero AND whose `yc` is nonzero. -/
def df_remove_zerozero (l : List Row) : List Row :=
  l.filter (fun r => (r.xc != 0) && (r.yc != 0))

/-- The home-side coordinate alignment of `split_df` (line 507): rows with
`xc < 0` get both coordinates negated. -/
def homeAlignRow (r : Row) : Row :=
  if r.xc < 0 then {r with xc := -r.xc, yc := -r.yc} else r

/-- The away-side coordinate alignment of `split_df` (line 508): rows with
`xc > 0` get both coordinates negated. -/
def awayAlignRow (r : Row) : Row :=
  if 0 < r.xc then {r with xc := -r.xc, yc := -r.yc} else r

/-- Embeds `split_df` (clean_pbp.py lines 490-510): partition by
`ev_team == home_team` versus `ev_team != home_team`, then align each side's
shot coordinates. -/
def split_df (l : List Row) (home_team : String) : List Row × List Row :=
  let home_df := l.filter (fun r => optEq r.ev_team (some home_team))
  let away_df := l.filter (fun r => !(optEq r.ev_team (some home_team)))
  (home_df.map homeAlignRow, away_df.map awayAlignRow)

/-- Returns `true` exactly when a normalization result is not a pandas error. -/
def except_is_ok (e : Except CleanError (List Row)) : Bool :=
  match e with
  | .ok _ => true
  | .error _ => false

/-- The `home_team` column of a normalization result (empty on error). -/
def result_home_teams (e : Except CleanError (List Row)) : List (Option String) :=
  match e with
  | .ok l => l.map (·.home_team)
  | .error _ => []

/-- A row with the given coordinates, zone and corsi flag, for exercising the
danger classifier. -/
def mk_danger_row (x y : ℤ) (zone : String) (corsi : ℤ) : Row :=
  { xc := x, yc := y, ev_zone := zone, is_corsi := corsi }

/-- A non-BLOCK event recorded in the offensive zone. -/
def c1_shot_row : Row :=
  { event := "SHOT", ev_zone := "Off" }

/-- A raw event in period 2 at within-period second 0. -/
def c2_row : Row :=
  { period := 2, seconds_elapsed := 0, event := "SHOT", ev_team := some ("NJD"),
    home_team := some ("NJD"), away_team := some ("NYR"), ev_zone := "Off",
    xc := 50, yc := 5 }

/-- An event whose acting team matches neither the home nor the away team. -/
def c4_unknown_row : Row :=
  { event := "SHOT", ev_team := some ("XXX"), home_team := some ("NJD"),
    away_team := some ("NYR"), xc := -30, yc := 5 }

/-- An event at xc = 0 with a nonzero yc. -/
def c5_row_x0 : Row :=
  { event := "SHOT", xc := 0, yc := 10 }

/-- An event at yc = 0 with a nonzero xc. -/
def c5_row_y0 : Row :=
  { event := "SHOT", xc := 30, yc := 0 }

/-- An event with both coordinates nonzero. -/
def c5_row_keep : Row :=
  { event := "SHOT", xc := 30, yc := 10 }

/-- An event whose `home_team` cell is missing. -/
def c6_row : Row :=
  { event := "SHOT", ev_team := some ("NYR"), home_team := none,
    away_team := some ("NYR") }

/-- First of two consecutive corsi events by the same team. -/
def c7_row_a : Row :=
  { event := "SHOT", ev_team := some ("NJD"), is_corsi := 1, seconds_elapsed := 100 }

/-- Second corsi event by the same team, 3 seconds later. -/
def c7_row_b : Row :=
  { event := "SHOT", ev_team := some ("NJD"), is_corsi := 1, seconds_elapsed := 103,
    time_diff := some 3 }

/-- Row `c7_row_b` after `calc_rebound` marks it as a rebound. -/
def c7_row_b_out : Row :=
  { c7_row_b with is_rebound := 1 }

/-- Second corsi event by the same team, 5 seconds later. -/
def c7_row_b5 : Row :=
  { event := "SHOT", ev_team := some ("NJD"), is_corsi := 1, seconds_elapsed := 105,
    time_diff := some 5 }

/-- A period-1 event at second 100. -/
def c9_row1 : Row :=
  { period := 1, seconds_elapsed := 100 }

/-- A period-2 event at within-period second 50. -/
def c9_row2 : Row :=
  { period := 2, seconds_elapsed := 50 }

/-- Row `c9_row1` after the period-offset correction. -/
def c9_out1 : Row :=
  { period := 1, seconds_elapsed := 100 }

/-- Row `c9_row2` after the period-offset correction. -/
def c9_out2 : Row :=
  { period := 2, seconds_elapsed := 1250 }

/-!  Helper lemmas. -/

theorem pd_unique_headD (l : List (Option String)) :
    (pd_unique l).headD none = l.headD none := by
  cases l with
  | nil => rfl
  | cons a t => simp [pd_unique, pd_unique_aux]

theorem ltOptInt_eq_true (o : Option ℤ) (k : ℤ) :
    ltOptInt o k = true ↔ ∃ d, o = some d ∧ d < k := by
  cases o <;> simp [ltOptInt]

theorem optEq_eq_true (a b : Option String) :
    optEq a b = true ↔ ∃ t, a = some t ∧ b = some t := by
  cases a with
  | none => simp [optEq]
  | some x =>
    cases b with
    | none => simp [optEq]
    | some y =>
      simp only [optEq, beq_iff_eq, Option.some.injEq]
      constructor
      · intro h
        exact ⟨x, rfl, h.symm⟩
      · rintro ⟨t, rfl, h⟩
        exact h.symm

theorem mapWithPrevAux_get? (f : Option Row → Row → Row) (l : List Row) :
    ∀ (p : Option Row) (i : ℕ),
      (mapWithPrevAux f p l).get? i
        = (l.get? i).map (fun a => f (if i = 0 then p else l.get? (i - 1)) a) := by
  induction l with
  | nil => intro p i; simp [mapWithPrevAux]
  | cons a t ih =>
    intro p i
    cases i with
    | zero => simp [mapWithPrevAux]
    | succ j =>
      simp only [mapWithPrevAux, List.get?_cons_succ, ih (some a) j,
        Nat.succ_ne_zero, if_false, Nat.succ_sub_one]
      cases j with
      | zero => rfl
      | succ k => rfl

/-!  Claim theorems. -/

/-- Claim C1 (code bug): `fixed_blocked_shots` applies the Off↔Def flip to the
whole `ev_zone` column, not only to BLOCK events — a SHOT event recorded in
the offensive zone leaves the normalizer with zone "Def". -/
theorem fixed_blocked_shots_flips_nonblock_zone :
    c1_shot_row.event = "SHOT" ∧ c1_shot_row.ev_zone = "Off"
      ∧ (fixed_blocked_shots [c1_shot_row]).map (·.ev_zone) = [("Def")] := by
  decide

/-- Claim C2 (code bug): the entry point applies `fix_seconds_elapsed` once
itself and then `run_all_stats` applies it again, so a period-2 event at
within-period second 0 ends with `seconds_elapsed` 2400, not the claimed
0 + 1200*(2-1) = 1200. -/
theorem lambda_normalize_double_period_offset :
    c2_row.period = 2 ∧ c2_row.seconds_elapsed = 0
      ∧ result_seconds (lambda_normalize [c2_row]) = [2400]
      ∧ c2_row.seconds_elapsed + 1200 * (c2_row.period - 1) = 1200 := by
  decide

/-- Claim C5 (code bug): `df_remove_zerozero` keeps only rows with both
coordinates nonzero, so events with exactly one zero coordinate — claimed to
be retained — are dropped as well. -/
theorem df_remove_zerozero_drops_single_zero :
    c5_row_x0.xc = 0 ∧ c5_row_x0.yc = 10 ∧ c5_row_y0.xc = 30 ∧ c5_row_y0.yc = 0
      ∧ df_remove_zerozero [c5_row_x0, c5_row_y0, c5_row_keep] = [c5_row_keep] := by
  decide

/-- Claim C4, counterexample: an event whose acting team matches neither the
home nor the away team is NOT excluded from both outputs of `split_df` — it
lands in the away output. -/
theorem split_df_unknown_team_in_away_output :
    c4_unknown_row.ev_team ≠ c4_unknown_row.home_team
      ∧ c4_unknown_row.ev_team ≠ c4_unknown_row.away_team
      ∧ split_df [c4_unknown_row] ("NJD") = ([], [c4_unknown_row]) := by
  decide

/-- Claim C4, amended: an event whose acting team differs from the home team
(including any unknown team) appears, coordinate-aligned, in the away output
of `split_df`, while the home output contains only events whose acting team
equals the home team. -/
theorem split_df_unknown_excluded_from_home_only (l : List Row) (home : String)
    (r : Row) (hr : r ∈ l) (hne : optEq r.ev_team (some home) = false) :
    awayAlignRow r ∈ (split_df l home).2
      ∧ ∀ s ∈ (split_df l home).1, optEq s.ev_team (some home) = true := by
  constructor
  · unfold split_df
    exact List.mem_map_of_mem _ (List.mem_filter.mpr ⟨hr, by simp [hne]⟩)
  · intro s hs
    unfold split_df at hs
    rcases List.mem_map.mp hs with ⟨t, ht, rfl⟩
    have hpred := (List.mem_filter.mp ht).2
    have hev : (homeAlignRow t).ev_team = t.ev_team := by
      unfold homeAlignRow; split <;> rfl
    rw [hev]
    exact hpred

/-- Witness for the amended claim C4 at a concrete unknown-team event. -/
theorem split_df_unknown_excluded_from_home_only_witness :
    awayAlignRow c4_unknown_row ∈ (split_df [c4_unknown_row] ("NJD")).2 :=
  (split_df_unknown_excluded_from_home_only [c4_unknown_row] ("NJD") c4_unknown_row
    (by simp) (by decide)).1

/-- Claim C6, counterexample: on an input whose `home_team` cells are all
missing, `clean_df` does not fail — it returns a table whose `home_team`
cells are still missing. -/
theorem clean_df_ok_on_all_missing_home :
    c6_row.home_team = none ∧ except_is_ok (clean_df [c6_row]) = true
      ∧ result_home_teams (clean_df [c6_row]) = [none] := by
  decide

/-- Claim C8: if any of the three edge-orientation determinants of the
medium-danger triangle vanishes at a point, `point_in_triangle` classifies
the point as outside.  The three determinants sum to the constant -300, so
they can never be simultaneously nonnegative. -/
theorem point_in_triangle_boundary_outside (x y : ℤ)
    (h : tri_side_1 (x, y) md_triangle = 0 ∨ tri_side_2 (x, y) md_triangle = 0
      ∨ tri_side_3 (x, y) md_triangle = 0) :
    point_in_triangle (x, y) md_triangle = false := by
  have hsum : tri_side_1 (x, y) md_triangle + tri_side_2 (x, y) md_triangle
      + tri_side_3 (x, y) md_triangle = -300 := by
    simp only [tri_side_1, tri_side_2, tri_side_3, md_triangle]
    ring
  unfold point_in_triangle
  rcases h with h | h | h <;>
    by_cases h1 : tri_side_1 (x, y) md_triangle < 0 <;>
    by_cases h2 : tri_side_2 (x, y) md_triangle < 0 <;>
    by_cases h3 : tri_side_3 (x, y) md_triangle < 0 <;>
    simp [h1, h2, h3] <;> omega

/-- Witness for claim C8: the edge point (70,15) has a vanishing C-to-A
determinant and is classified as outside. -/
theorem point_in_triangle_boundary_outside_witness :
    point_in_triangle ((70 : ℤ), (15 : ℤ)) md_triangle = false :=
  point_in_triangle_boundary_outside 70 15 (Or.inr (Or.inr (by decide)))

/-- Claim C3: the danger classifier implements exactly the claimed case
analysis on absolute coordinates (null unless corsi; 0 outside the offensive
zone; 3 in the slot; 2 in the medium-danger bands or triangle; else 1),
together with the claimed concrete evaluations. -/
theorem dfapply_danger_area_case_analysis :
    (∀ r : Row, dfapply_danger_area r = danger_area_claim r)
      ∧ dfapply_danger_area (mk_danger_row 75 5 ("Off") 1) = some 3
      ∧ dfapply_danger_area (mk_danger_row 48 5 ("Off") 1) = some 2
      ∧ dfapply_danger_area (mk_danger_row 30 30 ("Off") 1) = some 1
      ∧ dfapply_danger_area (mk_danger_row 75 5 ("Def") 1) = some 0
      ∧ dfapply_danger_area (mk_danger_row 75 5 ("Off") 0) = none := by
  refine ⟨?_, by decide, by decide, by decide, by decide, by decide⟩
  intro r
  dsimp only [dfapply_danger_area, danger_area_claim]
  split_ifs <;> first | rfl | tauto

theorem set_away_scores_home_col (v : Option String) (acc : ℤ) (l : List Row) :
    (set_away_scores v acc l).map (·.home_team) = l.map (·.home_team) := by
  induction l generalizing acc with
  | nil => rfl
  | cons r t ih => simp [set_away_scores, ih]

theorem set_home_scores_home_col (v : Option String) (acc : ℤ) (l : List Row) :
    (set_home_scores v acc l).map (·.home_team) = l.map (·.home_team) := by
  induction l generalizing acc with
  | nil => rfl
  | cons r t ih => simp [set_home_scores, ih]

theorem clean_df_home_col (a : Row) (t : List Row) :
    result_home_teams (clean_df (a :: t))
      = (a :: t).map (fun r => fillCell a.home_team r.home_team) := by
  simp only [clean_df, result_home_teams, set_home_scores_home_col,
    set_away_scores_home_col, List.map_map, pd_unique_headD, List.map_cons,
    List.headD_cons, Function.comp]
  rfl

/-- Claim C6, amended: on a nonempty input whose `home_team` cells are all
missing, `clean_df` does not fail — there is no `DataIntegrityError` in the
code; the `fillna` with the column's (missing) first unique value is a no-op
and the returned table's `home_team` cells are still missing. -/
theorem clean_df_missing_home_not_fatal (l : List Row) (hne : l ≠ [])
    (hall : ∀ r ∈ l, r.home_team = none) :
    except_is_ok (clean_df l) = true
      ∧ ∀ o ∈ result_home_teams (clean_df l), o = none := by
  obtain ⟨a, t, rfl⟩ : ∃ a t, l = a :: t := by
    cases l with
    | nil => exact absurd rfl hne
    | cons a t => exact ⟨a, t, rfl⟩
  constructor
  · simp [clean_df, except_is_ok]
  · intro o ho
    rw [clean_df_home_col] at ho
    rcases List.mem_map.mp ho with ⟨r, hrm, rfl⟩
    rw [hall a (List.mem_cons_self a t), hall r hrm]
    rfl

/-- Witness for the amended claim C6 at a concrete one-row input with a
missing home team. -/
theorem clean_df_missing_home_not_fatal_witness :
    except_is_ok (clean_df [c6_row]) = true :=
  (clean_df_missing_home_not_fatal [c6_row] (by simp) (by decide)).1

/-- Claim C7: for an event with a predecessor, `calc_rebound` marks it as a
rebound exactly when its `time_diff` is strictly below 4 seconds, it is a
corsi event, the previous event is a corsi event, and both have the same
(present) acting team. -/
theorem calc_rebound_iff (l : List Row) (i : ℕ) (a b c : Row)
    (ha : l.get? i = some a) (hb : l.get? (i + 1) = some b)
    (hc : (calc_rebound l).get? (i + 1) = some c) :
    c.is_rebound = 1 ↔
      ((∃ d, b.time_diff = some d ∧ d < 4) ∧ b.is_corsi = 1 ∧ a.is_corsi = 1
        ∧ ∃ t, b.ev_team = some t ∧ a.ev_team = some t) := by
  unfold calc_rebound mapWithPrev at hc
  rw [mapWithPrevAux_get?] at hc
  rw [hb] at hc
  simp only [Nat.succ_ne_zero, if_false, Nat.add_sub_cancel, ha, Option.map_some',
    Option.some.injEq] at hc
  subst hc
  show (if (ltOptInt b.time_diff 4 && (b.is_corsi == 1) && prev_is_corsi (some a)
      && prev_same_team (some a) b) = true then (1 : ℤ) else 0) = 1 ↔ _
  by_cases hcond : (ltOptInt b.time_diff 4 && (b.is_corsi == 1)
      && prev_is_corsi (some a) && prev_same_team (some a) b) = true
  · rw [if_pos hcond]
    simp only [Bool.and_eq_true, beq_iff_eq, prev_is_corsi, prev_same_team] at hcond
    obtain ⟨⟨⟨hlt, hbc⟩, hac⟩, hteam⟩ := hcond
    exact iff_of_true rfl
      ⟨(ltOptInt_eq_true _ _).mp hlt, hbc, hac, (optEq_eq_true _ _).mp hteam⟩
  · rw [if_neg hcond]
    refine iff_of_false (by omega) ?_
    rintro ⟨hd, hbc, hac, hteam⟩
    apply hcond
    simp only [Bool.and_eq_true, beq_iff_eq, prev_is_corsi, prev_same_team]
    exact ⟨⟨⟨(ltOptInt_eq_true _ _).mpr hd, hbc⟩, hac⟩, (optEq_eq_true _ _).mpr hteam⟩

/-- Witness for claim C7: two corsi events by the same team 3 seconds apart
make the second a rebound; 5 seconds apart do not. -/
theorem calc_rebound_iff_witness :
    (calc_rebound [c7_row_a, c7_row_b]).get? 1 = some c7_row_b_out
      ∧ c7_row_b_out.is_rebound = 1
      ∧ (calc_rebound [c7_row_a, c7_row_b5]).get? 1
          = some ({ c7_row_b5 with is_rebound := 0 }) := by
  refine ⟨by decide, ?_, by decide⟩
  have hget : (calc_rebound [c7_row_a, c7_row_b]).get? 1 = some c7_row_b_out := by decide
  exact (calc_rebound_iff [c7_row_a, c7_row_b] 0 c7_row_a c7_row_b c7_row_b_out
    rfl rfl hget).mpr ⟨⟨3, rfl, by omega⟩, rfl, rfl, ⟨"NJD", rfl, rfl⟩⟩

theorem pair_get?_adj {x y : Row} {i : ℕ} {a b : Row}
    (ha : [x, y].get? i = some a) (hb : [x, y].get? (i + 1) = some b) :
    a = x ∧ b = y ∧ i = 0 := by
  cases i with
  | zero => exact ⟨(Option.some.inj ha).symm, (Option.some.inj hb).symm, rfl⟩
  | succ j =>
    cases j with
    | zero => exact Option.noConfusion hb
    | succ k => exact Option.noConfusion ha

/-- Claim C9: if periods are non-decreasing along the sequence, within-period
seconds lie in [0, 1200] and are non-decreasing inside each period, then the
corrected `seconds_elapsed` produced by `fix_seconds_elapsed` is
non-decreasing across the whole game. -/
theorem fix_seconds_elapsed_monotone (l : List Row)
    (hper : ∀ i a b, l.get? i = some a → l.get? (i + 1) = some b →
      a.period ≤ b.period)
    (hlo : ∀ a ∈ l, 0 ≤ a.seconds_elapsed)
    (hhi : ∀ a ∈ l, a.seconds_elapsed ≤ 1200)
    (hmono : ∀ i a b, l.get? i = some a → l.get? (i + 1) = some b →
      a.period = b.period → a.seconds_elapsed ≤ b.seconds_elapsed) :
    ∀ i a b, (fix_seconds_elapsed l).get? i = some a →
      (fix_seconds_elapsed l).get? (i + 1) = some b →
      a.seconds_elapsed ≤ b.seconds_elapsed := by
  intro i a b ha hb
  unfold fix_seconds_elapsed at ha hb
  rw [List.get?_map] at ha hb
  rcases Option.map_eq_some'.mp ha with ⟨a0, ha0, haeq⟩
  rcases Option.map_eq_some'.mp hb with ⟨b0, hb0, hbeq⟩
  subst haeq
  subst hbeq
  show a0.seconds_elapsed + 1200 * (a0.period - 1)
    ≤ b0.seconds_elapsed + 1200 * (b0.period - 1)
  have h1 : 0 ≤ b0.seconds_elapsed := hlo _ (List.get?_mem hb0)
  have h2 : a0.seconds_elapsed ≤ 1200 := hhi _ (List.get?_mem ha0)
  have hp : a0.period ≤ b0.period := hper i a0 b0 ha0 hb0
  by_cases hpe : a0.period = b0.period
  · have hs := hmono i a0 b0 ha0 hb0 hpe
    omega
  · omega

/-- Witness for claim C9 on a concrete two-event sequence crossing periods. -/
theorem fix_seconds_elapsed_monotone_witness :
    (fix_seconds_elapsed [c9_row1, c9_row2]).get? 0 = some c9_out1
      ∧ (fix_seconds_elapsed [c9_row1, c9_row2]).get? 1 = some c9_out2
      ∧ c9_out1.seconds_elapsed ≤ c9_out2.seconds_elapsed := by
  have hper : ∀ i (a b : Row), [c9_row1, c9_row2].get? i = some a →
      [c9_row1, c9_row2].get? (i + 1) = some b → a.period ≤ b.period := by
    intro i a b ha hb
    obtain ⟨rfl, rfl, _⟩ := pair_get?_adj ha hb
    decide
  have hmono : ∀ i (a b : Row), [c9_row1, c9_row2].get? i = some a →
      [c9_row1, c9_row2].get? (i + 1) = some b → a.period = b.period →
      a.seconds_elapsed ≤ b.seconds_elapsed := by
    intro i a b ha hb hpe
    obtain ⟨rfl, rfl, _⟩ := pair_get?_adj ha hb
    exact absurd hpe (by decide)
  refine ⟨by decide, by decide, ?_⟩
  exact fix_seconds_elapsed_monotone [c9_row1, c9_row2] hper (by decide) (by decide)
    hmono 0 c9_out1 c9_out2 (by decide) (by decide)

theorem clean_coord_eq (c : CoordCell) :
    clean_coord c = some (coord_int_claim c) := by
  cases c <;> rfl

/-- Claim C10: the coordinate coercion of `clean_df` (replace "" by "0", fill
missing with 0, cast to int) always succeeds and yields, for every cell, the
integer 0 for empty or missing values and the toward-zero truncation of any
numeric value — every event leaves the normalizer with integer coordinates. -/
theorem clean_coord_column_ints (cells : List CoordCell) :
    clean_coord_column cells = some (cells.map coord_int_claim) := by
  induction cells with
  | nil => rfl
  | cons c t ih => simp [clean_coord_column, clean_coord_eq, ih]

/-- Witness for claim C10 on a concrete column: empty and missing cells
become 0, and 3.5 / -3.5 truncate toward zero. -/
theorem clean_coord_column_ints_witness :
    clean_coord_column
        [CoordCell.emptyStr, CoordCell.missing, CoordCell.numVal (mkRat 7 2),
          CoordCell.numVal (mkRat (-7) 2)]
      = some [0, 0, 3, -3] := by
  rw [clean_coord_column_ints]
  decide

end Shotmaps
